import Mathlib

/-!
Verification of the KIPR backend client (kipr/kipr-backend-client).

The repository has two source files: the abstract entity/navigation contract
(interfaces File, Version, Project, User, Organization, Client and their
Brief metadata classes) and a concrete, entirely stubbed REST implementation
(RestFile, RestVersion, RestProject, RestUser, RestClient).

Embedding conventions:
- All methods of the source are async (they return a Promise). A Promise
  either resolves with a value or rejects with an error, so an async method
  returning Promise T is embedded as a pure function into
  Except ApiError T (the stub never awaits anything and never rejects).
- A void-returning async mutator (move, update, close, delete) is embedded
  as a function returning the post-state of its receiver; the stub bodies
  are empty, so the post-state always equals the pre-state.
- The nested collection classes (RestVersion.Files, RestProject.Versions,
  RestUser.Projects) hold exactly one field, a back-reference to their
  parent, so they are embedded as families of functions taking that parent
  as first argument.
- The abstract interfaces are embedded as structures of capabilities; the
  generic parameter B stands for the brief element type returned by list,
  breaking the type-level recursion the source expresses nominally.
-/

namespace Kipr

/-- Error taxonomy of the contract (spec section 7). The stubbed REST
implementation never produces any of these; the type records the possible
rejection reasons of an async operation. -/
inductive ApiError where
  | notFound
  | conflict
  | permissionDenied
  | authenticationFailed
  | invalidState
  deriving DecidableEq, Repr

/-! ### Abstract interface signatures (src/unnamed/part_000)

Each signature records the members that the Brief navigation pattern uses:
the handle of the entity and its nested sub-collection of capabilities. -/

/-- Capabilities of the abstract Version.Files sub-collection interface:
list, create(path), open(handle). F is the file type, B the brief element
type of list. -/
structure VersionFilesSig (F B : Type) where
  list : List B
  create : String → F
  «open» : String → F

/-- Members of the abstract Version interface that Brief navigation uses:
handle and the files sub-collection. -/
structure VersionSig (F B : Type) where
  handle : String
  files : VersionFilesSig F B

/-- Capabilities of the abstract Project.Versions sub-collection interface:
list, create(name, description?), restore(handle, name?, description?),
open(handle). -/
structure ProjectVersionsSig (V B : Type) where
  list : List B
  create : String → Option String → V
  restore : String → Option String → Option String → V
  «open» : String → V

/-- Members of the abstract Project interface that Brief navigation uses:
handle and the versions sub-collection. -/
structure ProjectSig (V B : Type) where
  handle : String
  versions : ProjectVersionsSig V B

/-- Capabilities of the abstract User.Projects sub-collection interface:
list, create(name), open(handle), delete(handle). delete returns the
post-state of the user-side collection, embedded as Unit here since the
abstract contract gives it no observable result. -/
structure UserProjectsSig (P B : Type) where
  list : List B
  create : String → P
  «open» : String → P
  delete : String → Unit

/-- Members of the abstract User interface that Brief navigation uses:
handle and the projects sub-collection. -/
structure UserSig (P B : Type) where
  handle : String
  projects : UserProjectsSig P B

namespace File

/-- File metadata (class File.Brief of the abstract contract): a version
back-reference, a path and a handle, all private with getters. -/
structure Brief (F B : Type) where
  version_ : VersionSig F B
  path_ : String
  handle_ : String

/-- Getter: the Version this File belongs to. -/
def Brief.version (b : Brief F B) : VersionSig F B := b.version_

/-- Getter: the path of the File. -/
def Brief.path (b : Brief F B) : String := b.path_

/-- Getter: the UUID of the File. -/
def Brief.handle (b : Brief F B) : String := b.handle_

/-- Method File.Brief.open: returns this.version_.files.open(this.handle_). -/
def Brief.«open» (b : Brief F B) : F := b.version_.files.«open» b.handle_

end File

namespace Version

/-- Version metadata (class Version.Brief of the abstract contract): a
project back-reference, a name, an optional description and a handle. -/
structure Brief (V B : Type) where
  project_ : ProjectSig V B
  name_ : String
  description_ : Option String
  handle_ : String

/-- Getter: the project this Version belongs to. -/
def Brief.project (b : Brief V B) : ProjectSig V B := b.project_

/-- Getter: the UUID of the Version. -/
def Brief.handle (b : Brief V B) : String := b.handle_

/-- Getter: the name of this Version. -/
def Brief.name (b : Brief V B) : String := b.name_

/-- Getter: the description of this Version. -/
def Brief.description (b : Brief V B) : Option String := b.description_

/-- Method Version.Brief.open: returns this.project_.versions.open(this.handle_). -/
def Brief.«open» (b : Brief V B) : V := b.project_.versions.«open» b.handle_

/-- Method Version.Brief.restore: returns
this.project_.versions.restore(this.handle_, name, description). -/
def Brief.restore (b : Brief V B) (name description : Option String) : V :=
  b.project_.versions.restore b.handle_ name description

end Version

namespace Project

/-- Project metadata (class Project.Brief of the abstract contract): a user
back-reference, a name and a handle, set by the constructor. -/
structure Brief (P B : Type) where
  user_ : UserSig P B
  name_ : String
  handle_ : String

/-- Constructor Project.Brief(handle, name, user). -/
def Brief.make (handle : String) (name : String) (user : UserSig P B) : Brief P B :=
  { user_ := user, name_ := name, handle_ := handle }

/-- Getter: the user this project belongs to. -/
def Brief.user (b : Brief P B) : UserSig P B := b.user_

/-- Getter: the name of the project. -/
def Brief.name (b : Brief P B) : String := b.name_

/-- Getter: the UUID of the project. -/
def Brief.handle (b : Brief P B) : String := b.handle_

/-- Method Project.Brief.open: returns this.user_.projects.open(this.handle_). -/
def Brief.«open» (b : Brief P B) : P := b.user_.projects.«open» b.handle_

end Project

namespace User

/-- User metadata (class User.Brief of the abstract contract): a client
back-reference and a handle, with getters and no methods. -/
structure Brief (C : Type) where
  client_ : C
  handle_ : String

/-- Getter: the client of a user brief. -/
def Brief.client (b : Brief C) : C := b.client_

/-- Getter: the handle of a user brief. -/
def Brief.handle (b : Brief C) : String := b.handle_

end User

namespace Organization

/-- Organization metadata (class Organization.Brief of the abstract
contract): a client back-reference and a handle, with getters only. -/
structure Brief (C : Type) where
  client_ : C
  handle_ : String

/-- Getter: the client of an organization brief. -/
def Brief.client (b : Brief C) : C := b.client_

/-- Getter: the handle of an organization brief. -/
def Brief.handle (b : Brief C) : String := b.handle_

end Organization

/-! ### Declared member names of the abstract interfaces

The entity interfaces of src/unnamed/part_000, transcribed member by member
(property and method names as declared, getters by their exposed name).
These model the shape of each entity contract for the handle-exposure
claim. -/

/-- Members declared by interface File: readonly handle, path(), move(path),
read(), update(contents), close(). -/
def fileDeclaredMembers : List String :=
  ["handle", "path", "move", "read", "update", "close"]

/-- Members declared by interface Version: handle and files. -/
def versionDeclaredMembers : List String :=
  ["handle", "files"]

/-- Members declared by interface Project: handle, name(), versions,
close(). -/
def projectDeclaredMembers : List String :=
  ["handle", "name", "versions", "close"]

/-- Members declared by interface User: handle, name(), email(),
setEmail(email), projects, organizations. -/
def userDeclaredMembers : List String :=
  ["handle", "name", "email", "setEmail", "projects", "organizations"]

/-- Members declared by interface Organization: name(), description(),
users. The interface declares no handle member. -/
def organizationDeclaredMembers : List String :=
  ["name", "description", "users"]

/-- Public members of the concrete class RestUser: the client and projects
getters (token_ is private; the class declares no handle). -/
def restUserDeclaredMembers : List String :=
  ["client", "projects"]

/-- The five entity interfaces of the contract, each paired with its
declared member list. -/
def entityInterfaces : List (String × List String) :=
  [("File", fileDeclaredMembers),
   ("Version", versionDeclaredMembers),
   ("Project", projectDeclaredMembers),
   ("User", userDeclaredMembers),
   ("Organization", organizationDeclaredMembers)]

/-! ### Concrete stubbed REST implementation (src/src/Rest.ts) -/

/-- Class RestClient: the only state is the base url, defaulted to
DEFAULT_URL by the constructor. -/
structure RestClient where
  url_ : String
  deriving DecidableEq, Repr

/-- Static constant RestClient.DEFAULT_URL. -/
def RestClient.DEFAULT_URL : String := "https://api.kipr.org"

/-- Constructor RestClient(url = RestClient.DEFAULT_URL). -/
def RestClient.make (url : String := RestClient.DEFAULT_URL) : RestClient :=
  { url_ := url }

/-- Getter RestClient.url. -/
def RestClient.url (c : RestClient) : String := c.url_

/-- Class RestUser: a token and a client back-reference, set by the
constructor RestUser(token, client). The class declares no handle. -/
structure RestUser where
  token_ : String
  client_ : RestClient
  deriving DecidableEq, Repr

/-- Getter RestUser.client. -/
def RestUser.client (u : RestUser) : RestClient := u.client_

/-- Class RestProject: a handle, a user back-reference and an optional name
field. The constructor RestProject(handle, user) sets handle_ and user_ and
leaves name_ unassigned (none). -/
structure RestProject where
  handle_ : String
  user_ : RestUser
  name_ : Option String
  deriving DecidableEq, Repr

/-- Constructor RestProject(handle, user): name_ is never assigned. -/
def RestProject.make (handle : String) (user : RestUser) : RestProject :=
  { handle_ := handle, user_ := user, name_ := none }

/-- Getter RestProject.user. -/
def RestProject.user (p : RestProject) : RestUser := p.user_

/-- Getter RestProject.handle. -/
def RestProject.handle (p : RestProject) : String := p.handle_

/-- Method RestProject.name(): the source body is
`if (name) return this.name_; return ''`. The bare identifier name does not
resolve to this.name_; under browser globals it is the ambient window.name
string, tested for truthiness (nonempty), and under Node it is undefined
and the method throws a ReferenceError. We embed the browser reading, with
the ambient global as the explicit first argument; the result type
Option String models the TS type string or undefined of this.name_. -/
def RestProject.name (globalName : String) (p : RestProject) :
    Except ApiError (Option String) :=
  if globalName ≠ "" then Except.ok p.name_ else Except.ok (some "")

/-- Method RestProject.close(): empty body; resolves with the receiver
unchanged. -/
def RestProject.close (p : RestProject) : Except ApiError RestProject :=
  Except.ok p

/-- Class RestVersion: a handle and a project back-reference, set by the
constructor RestVersion(handle, project). -/
structure RestVersion where
  handle_ : String
  project_ : RestProject
  deriving DecidableEq, Repr

/-- Getter RestVersion.handle. -/
def RestVersion.handle (v : RestVersion) : String := v.handle_

/-- Getter RestVersion.project. -/
def RestVersion.project (v : RestVersion) : RestProject := v.project_

/-- Class RestFile: a handle and a version back-reference, set by the
constructor RestFile(handle, version). There is no further state: no
contents, no path, no closed flag. -/
structure RestFile where
  handle_ : String
  version_ : RestVersion
  deriving DecidableEq, Repr

/-- Getter RestFile.version. -/
def RestFile.version (f : RestFile) : RestVersion := f.version_

/-- Getter RestFile.handle. -/
def RestFile.handle (f : RestFile) : String := f.handle_

/-- Method RestFile.path(): returns the empty string. -/
def RestFile.path (f : RestFile) : Except ApiError String :=
  Except.ok ""

/-- Method RestFile.move(path): empty body; resolves with the receiver
unchanged. -/
def RestFile.move (f : RestFile) (path : String) : Except ApiError RestFile :=
  Except.ok f

/-- Method RestFile.read(): returns the empty string. -/
def RestFile.read (f : RestFile) : Except ApiError String :=
  Except.ok ""

/-- Method RestFile.update(contents): empty body; resolves with the
receiver unchanged (no contents are stored anywhere). -/
def RestFile.update (f : RestFile) (contents : String) : Except ApiError RestFile :=
  Except.ok f

/-- Method RestFile.close(): empty body; resolves with the receiver
unchanged (no closed flag is recorded). -/
def RestFile.close (f : RestFile) : Except ApiError RestFile :=
  Except.ok f

namespace RestVersion

/- Class RestVersion.Files, whose only field is the version back-reference
passed to its constructor; embedded as functions over that version. -/
namespace Files

/-- Method RestVersion.Files.list(): returns the empty array. -/
def list (v : RestVersion) :
    Except ApiError (List (File.Brief RestFile Unit)) :=
  Except.ok []

/-- Method RestVersion.Files.create(path): returns
new RestFile('', this.version_), ignoring path. -/
def create (v : RestVersion) (path : String) : Except ApiError RestFile :=
  Except.ok { handle_ := "", version_ := v }

/-- Method RestVersion.Files.open(handle): returns
new RestFile(handle, this.version_). -/
def «open» (v : RestVersion) (handle : String) : Except ApiError RestFile :=
  Except.ok { handle_ := handle, version_ := v }

end Files

end RestVersion

namespace RestProject

/- Class RestProject.Versions, whose only field is the project
back-reference passed to its constructor; embedded as functions over that
project. -/
namespace Versions

/-- Method RestProject.Versions.list(): returns the empty array. -/
def list (p : RestProject) :
    Except ApiError (List (Version.Brief RestVersion Unit)) :=
  Except.ok []

/-- Method RestProject.Versions.create(name, description?): returns
new RestVersion('', this.project_), ignoring both arguments. -/
def create (p : RestProject) (name : String) (description : Option String) :
    Except ApiError RestVersion :=
  Except.ok { handle_ := "", project_ := p }

/-- Method RestProject.Versions.restore(handle, name?, description?):
returns new RestVersion(handle, this.project_), ignoring name and
description. -/
def restore (p : RestProject) (handle : String)
    (name description : Option String) : Except ApiError RestVersion :=
  Except.ok { handle_ := handle, project_ := p }

/-- Method RestProject.Versions.open(handle): returns
new RestVersion(handle, this.project_). -/
def «open» (p : RestProject) (handle : String) : Except ApiError RestVersion :=
  Except.ok { handle_ := handle, project_ := p }

end Versions

end RestProject

namespace RestUser

/- Class RestUser.Projects, whose only field is the user back-reference
passed to its constructor; embedded as functions over that user. -/
namespace Projects

/-- Method RestUser.Projects.list(): returns the empty array. -/
def list (u : RestUser) :
    Except ApiError (List (Project.Brief RestProject Unit)) :=
  Except.ok []

/-- Method RestUser.Projects.create(name): returns
new RestProject('', this.user_), ignoring name. -/
def create (u : RestUser) (name : String) : Except ApiError RestProject :=
  Except.ok (RestProject.make "" u)

/-- Method RestUser.Projects.open(handle): returns
new RestProject(handle, this.user_). -/
def «open» (u : RestUser) (handle : String) : Except ApiError RestProject :=
  Except.ok (RestProject.make handle u)

/-- Method RestUser.Projects.delete(handle): empty body; resolves with the
user unchanged. -/
def delete (u : RestUser) (handle : String) : Except ApiError RestUser :=
  Except.ok u

end Projects

end RestUser

/-- Method RestClient.login(username, password): returns
new RestUser('', this), ignoring both credentials. -/
def RestClient.login (c : RestClient) (username password : String) :
    Except ApiError RestUser :=
  Except.ok { token_ := "", client_ := c }

/-! ### Sample entities, following the usage script shipped with the source
(new Rest(), login, projects.open, versions.open, a file of that version). -/

/-- Sample client: new Rest() with the default url. -/
def sampleClient : RestClient := RestClient.make

/-- Sample user: the result of sampleClient.login with empty credentials. -/
def sampleUser : RestUser := { token_ := "", client_ := sampleClient }

/-- Sample project: user.projects.open("asdasd"). -/
def sampleProject : RestProject := RestProject.make "asdasd" sampleUser

/-- Sample version: project.versions.open("asdasdds"). -/
def sampleVersion : RestVersion :=
  { handle_ := "asdasdds", project_ := sampleProject }

/-- Sample file: a file of sampleVersion with a concrete handle. -/
def sampleFile : RestFile :=
  { handle_ := "file-0", version_ := sampleVersion }

/-! ### Claim theorems -/

/-- C1: For every Brief (File.Brief, Version.Brief, Project.Brief), calling
brief.open() returns the same result as calling the parent collection's
open with the brief's handle: a file brief resolves through
version.files.open(brief.handle), a version brief through
project.versions.open(brief.handle), and a project brief through
user.projects.open(brief.handle). -/
theorem brief_open_delegates_to_collection :
    (∀ (F B : Type) (fb : File.Brief F B),
      fb.«open» = fb.version.files.«open» fb.handle) ∧
    (∀ (V B : Type) (vb : Version.Brief V B),
      vb.«open» = vb.project.versions.«open» vb.handle) ∧
    (∀ (P B : Type) (pb : Project.Brief P B),
      pb.«open» = pb.user.projects.«open» pb.handle) :=
  ⟨fun _ _ _ => rfl, fun _ _ _ => rfl, fun _ _ _ => rfl⟩

/-- C2: The claimed write/read round-trip fails in the code. update stores
nothing (the receiver is unchanged) and read returns the empty string, so
after update(contents) with nonempty contents, read() does not return
contents; evaluated here at the failing input contents = "int main(void)". -/
theorem update_then_read_returns_empty :
    RestFile.update sampleFile "int main(void)" = Except.ok sampleFile ∧
    RestFile.read sampleFile = Except.ok "" ∧
    RestFile.read sampleFile ≠ Except.ok "int main(void)" :=
  ⟨rfl, rfl, fun h => by simp [RestFile.read] at h⟩

/-- C3: The claimed HEAD invariant fails in the code. After
versions.create("v1") the versions list is still the empty array, so the
returned Version (handle "") is not at index 0 of list(); list() has no
index 0 at all. -/
theorem versions_list_empty_after_create :
    RestProject.Versions.create sampleProject "v1" none =
      Except.ok { handle_ := "", project_ := sampleProject } ∧
    RestProject.Versions.list sampleProject = Except.ok [] :=
  ⟨rfl, rfl⟩

/-- C4: The claimed non-destructive restore fails in the code. restore
returns a RestVersion carrying the requested handle but appends nothing:
the versions list is still empty afterwards, so no new Version appears at
index 0. -/
theorem versions_list_empty_after_restore :
    RestProject.Versions.restore sampleProject "v1-handle" none none =
      Except.ok { handle_ := "v1-handle", project_ := sampleProject } ∧
    RestProject.Versions.list sampleProject = Except.ok [] :=
  ⟨rfl, rfl⟩

/-- C5: The claimed Conflict on duplicate create fails in the code.
files.create("/main.c") resolves with a fresh RestFile for every input and
never rejects, in particular not with a Conflict error, regardless of
whether the path is already taken. -/
theorem files_create_never_conflicts :
    RestVersion.Files.create sampleVersion "/main.c" =
      Except.ok { handle_ := "", version_ := sampleVersion } ∧
    RestVersion.Files.create sampleVersion "/main.c" ≠
      Except.error ApiError.conflict :=
  ⟨rfl, fun h => Except.noConfusion h⟩

/-- C6: The claimed InvalidState after close fails in the code. close is a
no-op that leaves the receiver unchanged, and every subsequent operation
still succeeds with its placeholder value instead of rejecting with an
InvalidState error; shown for a File and a Project after close. -/
theorem operations_succeed_after_close :
    RestFile.close sampleFile = Except.ok sampleFile ∧
    RestFile.read sampleFile = Except.ok "" ∧
    RestFile.path sampleFile = Except.ok "" ∧
    RestFile.update sampleFile "y" = Except.ok sampleFile ∧
    RestFile.move sampleFile "/new.c" = Except.ok sampleFile ∧
    RestFile.read sampleFile ≠ Except.error ApiError.invalidState ∧
    RestProject.close sampleProject = Except.ok sampleProject ∧
    RestProject.Versions.list sampleProject ≠
      Except.error ApiError.invalidState :=
  ⟨rfl, rfl, rfl, rfl, rfl, fun h => Except.noConfusion h, rfl,
    fun h => Except.noConfusion h⟩

/-- C7: The claimed authentication failure does not happen in the code.
login resolves with new RestUser('', this) for every username/password
pair, including invalid credentials, and never rejects with an
authentication error. -/
theorem login_always_succeeds :
    RestClient.login sampleClient "not-a-user" "wrong-password" =
      Except.ok { token_ := "", client_ := sampleClient } ∧
    RestClient.login sampleClient "not-a-user" "wrong-password" ≠
      Except.error ApiError.authenticationFailed :=
  ⟨rfl, fun h => Except.noConfusion h⟩

/-- C8 counterexample: the Organization entity interface is declared
without any handle member (it declares only name, description and users),
refuting the claim that every entity exposes a handle identifier. -/
theorem organization_interface_lacks_handle :
    ("Organization", organizationDeclaredMembers) ∈ entityInterfaces ∧
    "handle" ∉ organizationDeclaredMembers := by
  decide

/-- C8 amended: the File, Version, Project and User interfaces each declare
a handle member, but the Organization interface does not (and the concrete
RestUser class also exposes no handle). -/
theorem entities_expose_handle_except_organization :
    "handle" ∈ fileDeclaredMembers ∧
    "handle" ∈ versionDeclaredMembers ∧
    "handle" ∈ projectDeclaredMembers ∧
    "handle" ∈ userDeclaredMembers ∧
    "handle" ∉ organizationDeclaredMembers ∧
    "handle" ∉ restUserDeclaredMembers := by
  decide

/-- C9: RestProject.name() does not return the empty string for every
input: its body tests the ambient global name, not this.name_. With an
empty (falsy) global it returns the empty string, but with a nonempty
global it returns the never-assigned name_ field, that is undefined
(none), not the empty string. -/
theorem rest_project_name_depends_on_global :
    RestProject.name "" sampleProject = Except.ok (some "") ∧
    RestProject.name "x" sampleProject = Except.ok none ∧
    RestProject.name "x" sampleProject ≠ Except.ok (some "") := by
  refine ⟨rfl, rfl, fun h => ?_⟩
  rw [show RestProject.name "x" sampleProject = Except.ok none from rfl] at h
  exact Option.noConfusion (Except.ok.inj h)

/-- C10: RestVersion.Files.open(h), RestProject.Versions.open(h) and
RestProject.Versions.restore(h, name?, description?) each construct a fresh
entity whose handle equals h and whose parent back-reference is the
collection's own parent; restore keeps the historical handle h, and
RestVersion.Files.create(path) returns a RestFile whose handle is the empty
string for every path. -/
theorem collection_open_returns_fresh_entity :
    ∀ (v : RestVersion) (p : RestProject) (h path : String)
      (name description : Option String),
      RestVersion.Files.«open» v h =
        Except.ok { handle_ := h, version_ := v } ∧
      RestProject.Versions.«open» p h =
        Except.ok { handle_ := h, project_ := p } ∧
      RestProject.Versions.restore p h name description =
        Except.ok { handle_ := h, project_ := p } ∧
      RestVersion.Files.create v path =
        Except.ok { handle_ := "", version_ := v } :=
  fun _ _ _ _ _ _ => ⟨rfl, rfl, rfl, rfl⟩

end Kipr
